import Mathlib

/-!
Shallow embedding of the FastApi-store backend (Grenders/FastApi-store).

The embedding follows the Python source under `src/`:
* `src/config/dependencies.py`  — `JWTAuthManager` (token issue / decode),
* `src/config/auth.py`          — `_get_user_from_token`,
* `src/routes/account.py`       — password-reset request, token refresh,
* `src/routes/product.py`       — product list pagination, product update,
  cart item add, cart→order conversion,
* `src/schemas/account.py`      — password strength validation,
* `src/database/models/*.py`    — the data model.

Conventions: Python `dict`s become association lists with dict update
semantics (`dictSet`); SQLAlchemy rows become structures collected in a
`State` record; a request handler becomes a function
`State → args → State × Except HttpError α` where `.ok` is the 2xx body and
`.error` carries the HTTP status and detail of the raised `HTTPException`
(or of an unhandled exception, status 500); transactional commit/rollback is
made explicit through a `commitOk : Bool` parameter on handlers that write:
`commitOk = false` models a persistence failure at commit time, in which
case the handler returns the unchanged input state (rollback).
Monetary `Decimal` values are integers in cents; timestamps are seconds.
-/

namespace FastApiStore

/-! ### JSON-ish claim values and Python dict semantics -/

/-- A JWT claim value: a string or an integer (enough for the payloads the
application builds: subject ids, emails, the `exp` timestamp). -/
inductive JVal where
  | s (v : String)
  | n (v : Nat)
  deriving DecidableEq, Repr

/-- A JWT payload / claims map, as an association list with unique keys in
insertion order (Python `dict`). -/
abbrev Claims := List (String × JVal)

/-- Python `dict` update of a single key: replace in place when the key is
present, append otherwise (`to_encode.update({"exp": expire})`). -/
def dictSet (m : Claims) (k : String) (v : JVal) : Claims :=
  if m.any (fun p => p.1 == k) then
    m.map (fun p => if p.1 == k then (k, v) else p)
  else
    m ++ [(k, v)]

/-- Python `dict.get`: the value at a key, when present. -/
def dictGet (m : Claims) (k : String) : Option JVal :=
  (m.find? (fun p => p.1 == k)).map (fun p => p.2)

/-- Python truthiness of a claim value (`if not email:`). -/
def truthy : JVal → Bool
  | JVal.s v => v ≠ ""
  | JVal.n v => v ≠ 0

/-! ### Tokens and the JWT manager (`src/config/dependencies.py`) -/

/-- A signed token. `jwt.encode` produces an opaque string determined by the
payload and the signing secret; we keep the pair itself and treat the
encoding as injective, so equality of `Token`s models equality of the
encoded strings. -/
structure Token where
  payload : Claims
  secret : String
  deriving DecidableEq, Repr

/-- Errors of `jwt.decode` (PyJWT): `ExpiredSignatureError` or any other
`PyJWTError` (bad signature, malformed payload, malformed `exp`). -/
inductive JwtError where
  | expired
  | invalid
  deriving DecidableEq, Repr

/-- An HTTP error response: the status code and detail of a raised
`HTTPException` (or an unhandled exception, reported as status 500). -/
structure HttpError where
  status : Nat
  detail : String
  deriving DecidableEq, Repr

/-- `jwt.decode(token, secret, algorithms=[...])`: fails `invalid` on a
signature mismatch; validates the `exp` claim when present — expired when
`exp <= now` (PyJWT, zero leeway), `invalid` when `exp` is not an integer;
returns the full payload (including `exp`) on success. -/
def jwtDecode (tok : Token) (secret : String) (now : Nat) : Except JwtError Claims :=
  if tok.secret ≠ secret then
    Except.error JwtError.invalid
  else
    match dictGet tok.payload "exp" with
    | some (JVal.n exp) =>
        if exp ≤ now then Except.error JwtError.expired else Except.ok tok.payload
    | some (JVal.s _) => Except.error JwtError.invalid
    | none => Except.ok tok.payload

/-- `JWTAuthManager` configuration (`src/config/settings.py`): two
independent secrets and the default TTLs (minutes / days). -/
structure JWTAuthManager where
  accessSecret : String
  refreshSecret : String
  accessTokenExpireMinutes : Nat
  refreshTokenExpireDays : Nat
  deriving DecidableEq, Repr

namespace JWTAuthManager

/-- `_create_token`: copy the payload, set `exp := now + expires_delta`,
sign with the given secret. -/
def create_token (data : Claims) (secret : String) (expiresDelta : Nat)
    (now : Nat) : Token :=
  { payload := dictSet data "exp" (JVal.n (now + expiresDelta)), secret := secret }

/-- `create_access_token`: default TTL `ACCESS_TOKEN_EXPIRE_MINUTES` minutes,
overridable per call (`expires_delta`, in seconds here). -/
def create_access_token (m : JWTAuthManager) (data : Claims)
    (expiresDelta : Option Nat) (now : Nat) : Token :=
  create_token data m.accessSecret
    (expiresDelta.getD (m.accessTokenExpireMinutes * 60)) now

/-- `create_refresh_token`: default TTL `REFRESH_TOKEN_EXPIRE_DAYS` days. -/
def create_refresh_token (m : JWTAuthManager) (data : Claims)
    (expiresDelta : Option Nat) (now : Nat) : Token :=
  create_token data m.refreshSecret
    (expiresDelta.getD (m.refreshTokenExpireDays * 86400)) now

/-- `_decode_token`: converts PyJWT failures into `HTTPException`s —
401 "Token has expired" for `ExpiredSignatureError`, 401 "Invalid token"
for every other `PyJWTError`. -/
def decode_token (tok : Token) (secret : String) (now : Nat) :
    Except HttpError Claims :=
  match jwtDecode tok secret now with
  | Except.ok payload => Except.ok payload
  | Except.error JwtError.expired =>
      Except.error { status := 401, detail := "Token has expired" }
  | Except.error JwtError.invalid =>
      Except.error { status := 401, detail := "Invalid token" }

/-- `decode_access_token`. -/
def decode_access_token (m : JWTAuthManager) (tok : Token) (now : Nat) :
    Except HttpError Claims :=
  decode_token tok m.accessSecret now

/-- `decode_refresh_token`. -/
def decode_refresh_token (m : JWTAuthManager) (tok : Token) (now : Nat) :
    Except HttpError Claims :=
  decode_token tok m.refreshSecret now

end JWTAuthManager

/-- A concrete manager used for concrete evaluations (the deployed settings
draw two independent random secrets). -/
def testManager : JWTAuthManager :=
  { accessSecret := "access-secret", refreshSecret := "refresh-secret",
    accessTokenExpireMinutes := 15, refreshTokenExpireDays := 7 }

/-! ### Data model (`src/database/models/account.py`, `.../product.py`) -/

/-- `UserModel` (the fields the verified routes read). -/
structure User where
  id : Nat
  email : String
  hashedPassword : String
  isActive : Bool
  groupId : Nat
  deriving DecidableEq, Repr

/-- `PasswordResetTokenModel` row: owning user, opaque token, expiry. The
model class itself is not under `src/` (only its callers are); its row shape
follows the spec's PasswordResetToken description. -/
structure PasswordResetToken where
  userId : Nat
  token : Token
  expiresAt : Nat
  deriving DecidableEq, Repr

/-- `RefreshTokenModel` row: owning user, opaque token, expiry. As for
`PasswordResetToken`, the class body is not under `src/`; the row shape
follows the spec's RefreshToken description. -/
structure RefreshTokenRecord where
  userId : Nat
  token : Token
  expiresAt : Nat
  deriving DecidableEq, Repr

/-- `CategoryModel`. -/
structure Category where
  id : Nat
  name : String
  description : Option String
  deriving DecidableEq, Repr

/-- `StockStatusEnum`. -/
inductive StockStatus where
  | available
  | notAvailable
  deriving DecidableEq, Repr

/-- `ProductModel`; `price` is `Numeric(10, 2)`, kept in cents. -/
structure Product where
  id : Nat
  name : String
  description : Option String
  price : Int
  stock : StockStatus
  categoryId : Nat
  imageUrl : Option String
  deriving DecidableEq, Repr

/-- `CartModel`. -/
structure Cart where
  id : Nat
  userId : Nat
  deriving DecidableEq, Repr

/-- `CartItemModel`; `(cart_id, product_id)` is unique per cart in the
schema. -/
structure CartItem where
  id : Nat
  cartId : Nat
  productId : Nat
  quantity : Int
  deriving DecidableEq, Repr

/-- `StatusEnum` of orders. -/
inductive OrderStatus where
  | processing
  | canceled
  | closed
  deriving DecidableEq, Repr

/-- `OrderModel`; `total_price` is `Numeric(15, 2)`, kept in cents. -/
structure Order where
  id : Nat
  userId : Nat
  status : OrderStatus
  total_price : Int
  deriving DecidableEq, Repr

/-- `OrderItemModel`; `price_at_order_time` is the snapshot price in
cents. -/
structure OrderItem where
  orderId : Nat
  productId : Nat
  quantity : Int
  price_at_order_time : Int
  deriving DecidableEq, Repr

/-- The relational store: one list per table. -/
structure State where
  users : List User
  resetTokens : List PasswordResetToken
  refreshTokens : List RefreshTokenRecord
  categories : List Category
  products : List Product
  carts : List Cart
  cartItems : List CartItem
  orders : List Order
  orderItems : List OrderItem
  deriving DecidableEq, Repr

/-- The empty store. -/
def emptyState : State :=
  { users := [], resetTokens := [], refreshTokens := [], categories := [],
    products := [], carts := [], cartItems := [], orders := [],
    orderItems := [] }

/-! ### Password strength validation
(`src/schemas/account.py`, `BaseEmailPasswordSchema.validate_password`) -/

/-- The fixed special-character set of the regex `[@$!%*?&#]`. -/
def passwordSpecialChars : List Char := ['@', '$', '!', '%', '*', '?', '&', '#']

/-- The `errors` list built by `validate_password`: one message per failing
rule, in the fixed order of the checks. Python's `[A-Z]`, `[a-z]` regexes
are the ASCII letter ranges (`Char.isUpper`, `Char.isLower`); `\d` is
modeled as the ASCII digits. -/
def passwordErrors (password : String) : List String :=
  (if password.length < 8 then ["Minimum 8 characters required"] else [])
  ++ ((if password.toList.any Char.isUpper then []
      else ["Must contain at least one uppercase letter"])
  ++ ((if password.toList.any Char.isLower then []
      else ["Must contain at least one lowercase letter"])
  ++ ((if password.toList.any Char.isDigit then []
      else ["Must contain at least one digit"])
  ++ (if password.toList.any (fun c => c ∈ passwordSpecialChars) then []
      else ["Must contain at least one special character: @, $, !, %, *, ?, #, &"]))))

/-- `validate_password`: collects every failing rule into `errors`, then
raises `HTTPException(422)` carrying the full list when it is non-empty,
otherwise returns the password. -/
def validate_password (password : String) : Except (List String) String :=
  if (passwordErrors password).isEmpty then Except.ok password
  else Except.error (passwordErrors password)

/-! ### Product list pagination (`src/routes/product.py`, `get_product_list`) -/

/-- The body of `ProductResponseSchema`. -/
structure ProductResponse where
  products : List Product
  prev_page : Option String
  next_page : Option String
  total_pages : Nat
  total_items : Nat
  deriving DecidableEq, Repr

/-- `get_product_list`: `page` is 1-based (`ge=1`), `per_page` is bounded
`[1, 20]` by the query validators; 404 when the table is empty or the page
is past the end; otherwise the `offset/limit` slice together with
`total_pages = ceil(total_items / per_page)` and the pre-built relative
links (`None` at the bounds). `products` is the table in its retrieval
order. -/
def get_product_list (products : List Product) (page perPage : Nat) :
    Except HttpError ProductResponse :=
  let offset := (page - 1) * perPage
  let totalItems := products.length
  if totalItems = 0 then
    Except.error { status := 404, detail := "No products found." }
  else
    let pageProducts := (products.drop offset).take perPage
    if pageProducts.isEmpty then
      Except.error { status := 404, detail := "No products found." }
    else
      let totalPages := (totalItems + perPage - 1) / perPage
      Except.ok
        { products := pageProducts,
          prev_page :=
            if page > 1 then
              some ("/products/?page=" ++ toString (page - 1)
                    ++ "&per_page=" ++ toString perPage)
            else none,
          next_page :=
            if page < totalPages then
              some ("/products/?page=" ++ toString (page + 1)
                    ++ "&per_page=" ++ toString perPage)
            else none,
          total_pages := totalPages,
          total_items := totalItems }

/-! ### Password reset request
(`src/routes/account.py`, `request_password_reset_token`) -/

/-- The generic acknowledgement returned when the email matches no user or
an inactive user. -/
def genericResetMessage : String :=
  "If you are registered, you will receive an email with instructions."

/-- The message returned after a reset token was actually issued. -/
def successResetMessage : String := "You are can reset password,"

/-- `PasswordResetTokenModel.create(user_id, token, hours_valid)`.
Modelled from the spec: the model class is not under `src/`; per the spec a
reset token row carries the owning user, the opaque token and a fixed
validity window (`hours_valid` hours from creation). -/
def PasswordResetToken.create (userId : Nat) (token : Token)
    (hoursValid : Nat) (now : Nat) : PasswordResetToken :=
  { userId := userId, token := token, expiresAt := now + hoursValid * 3600 }

/-- `request_password_reset_token`: looks the user up by email; an unknown
or inactive user gets the generic 200 acknowledgement with no state change;
otherwise every prior reset token of that user is deleted, a fresh 1-hour
token is issued through the access-token signer and inserted, and both
writes commit as one unit (`commitOk = false` models the commit failing:
rollback plus a 500). -/
def request_password_reset_token (st : State) (m : JWTAuthManager)
    (email : String) (now : Nat) (commitOk : Bool) :
    State × Except HttpError String :=
  match st.users.find? (fun u => u.email == email) with
  | none => (st, Except.ok genericResetMessage)
  | some user =>
    if !user.isActive then
      (st, Except.ok genericResetMessage)
    else
      let remaining := st.resetTokens.filter (fun rt => rt.userId != user.id)
      let tokenPayload : Claims :=
        [("sub", JVal.s (toString user.id)), ("email", JVal.s user.email),
         ("type", JVal.s "password_reset")]
      let resetTokenStr := m.create_access_token tokenPayload (some 3600) now
      let resetToken := PasswordResetToken.create user.id resetTokenStr 1 now
      if commitOk then
        ({ st with resetTokens := remaining ++ [resetToken] },
         Except.ok successResetMessage)
      else
        (st, Except.error
          { status := 500,
            detail := "An error occurred while processing the request." })

/-! ### Token refresh (`src/routes/account.py`, `refresh_access_token`) -/

/-- Python `int(s)` on a string: a non-empty all-digit string parses to its
decimal value, anything else raises `ValueError`. -/
def pyParseNat (s : String) : Option Nat :=
  if s.toList ≠ [] ∧ s.toList.all Char.isDigit then
    some (s.toList.foldl (fun n c => n * 10 + (c.toNat - '0'.toNat)) 0)
  else none

/-- Python `int(x)` on a decoded claim value: an integer passes through, a
numeric string is parsed, anything else (including a missing claim, i.e.
`int(None)`) raises. -/
def pyIntOfClaim : Option JVal → Option Nat
  | some (JVal.n v) => some v
  | some (JVal.s v) => pyParseNat v
  | none => none

/-- `refresh_access_token`: decodes the refresh token — the `except` clause
of the source catches only `SQLAlchemyError`, which `decode_refresh_token`
never raises, so the 401 `HTTPException`s from `_decode_token` propagate
unchanged (and a missing or non-numeric `user_id` claim raises an unhandled
`TypeError`/`ValueError`, surfacing as a 500); then requires a stored
`RefreshTokenModel` row with that token string (else 401) and an existing
user with the embedded id (else 404); finally issues a fresh access token
with payload `{"user_id": user_id}` and default TTL. No store row is
written, rotated or revoked on any path. -/
def refresh_access_token (st : State) (m : JWTAuthManager) (tok : Token)
    (now : Nat) : State × Except HttpError Token :=
  match m.decode_refresh_token tok now with
  | Except.error e => (st, Except.error e)
  | Except.ok decodedToken =>
    match pyIntOfClaim (dictGet decodedToken "user_id") with
    | none =>
        (st, Except.error { status := 500, detail := "Internal Server Error" })
    | some userId =>
      match st.refreshTokens.find? (fun r => r.token == tok) with
      | none =>
          (st, Except.error { status := 401, detail := "Refresh token not found." })
      | some _ =>
        match st.users.find? (fun u => u.id == userId) with
        | none =>
            (st, Except.error { status := 404, detail := "User not found." })
        | some _ =>
            (st, Except.ok
              (m.create_access_token [("user_id", JVal.n userId)] none now))

/-! ### Bearer authentication (`src/config/auth.py`, `_get_user_from_token`) -/

/-- `_get_user_from_token`: decodes the bearer access token (the
`HTTPException`s raised by `decode_access_token` propagate — the
`except PyJWTError` clause is unreachable since `_decode_token` already
converted them); a missing or falsy `email` claim is rejected with
401 "Invalid token: missing email"; an unknown email with 403. -/
def get_user_from_token (st : State) (tok : Token) (m : JWTAuthManager)
    (now : Nat) : Except HttpError User :=
  match m.decode_access_token tok now with
  | Except.error e => Except.error e
  | Except.ok payload =>
    match dictGet payload "email" with
    | none =>
        Except.error { status := 401, detail := "Invalid token: missing email" }
    | some v =>
      if !truthy v then
        Except.error { status := 401, detail := "Invalid token: missing email" }
      else
        match st.users.find? (fun u => JVal.s u.email == v) with
        | none => Except.error { status := 403, detail := "User not found" }
        | some u => Except.ok u

/-! ### Cart item add (`src/routes/product.py`, `add_item_to_user_cart`) -/

/-- A fresh autoincrement id for `cart_items`. -/
def freshCartItemId (st : State) : Nat :=
  (st.cartItems.map (fun it => it.id)).foldr max 0 + 1

/-- `add_item_to_user_cart`: finds the current user's cart (first row; 404
when absent) and the product (404 when absent); then fetches the existing
`(cart_id, product_id)` row via `scalar_one_or_none` — more than one row
raises `MultipleResultsFound`, an unhandled 500. When a row exists its
quantity is incremented in place; otherwise a new row is inserted. The
SQLAlchemy `@validates("quantity")` hook rejects a non-positive resulting
quantity (unhandled `ValueError`, a 500). `commitOk = false` models the
commit failing: rollback, state unchanged. -/
def add_item_to_user_cart (st : State) (userId : Nat) (productId : Nat)
    (quantity : Int) (commitOk : Bool) : State × Except HttpError CartItem :=
  match st.carts.find? (fun c => c.userId == userId) with
  | none =>
      (st, Except.error { status := 404, detail := "Cart not found for current user." })
  | some cart =>
    match st.products.find? (fun p => p.id == productId) with
    | none =>
        (st, Except.error
          { status := 404,
            detail := "Product ID " ++ toString productId ++ " not found." })
    | some _ =>
      match st.cartItems.filter
          (fun it => it.cartId == cart.id && it.productId == productId) with
      | [] =>
          if quantity ≤ 0 then
            (st, Except.error
              { status := 500, detail := "Quantity must be greater than 0." })
          else
            let cartItem : CartItem :=
              { id := freshCartItemId st, cartId := cart.id,
                productId := productId, quantity := quantity }
            if commitOk then
              ({ st with cartItems := st.cartItems ++ [cartItem] },
               Except.ok cartItem)
            else
              (st, Except.error
                { status := 500, detail := "Error saving cart item." })
      | [existingItem] =>
          if existingItem.quantity + quantity ≤ 0 then
            (st, Except.error
              { status := 500, detail := "Quantity must be greater than 0." })
          else
            let updated := { existingItem with
                             quantity := existingItem.quantity + quantity }
            let bumped := st.cartItems.map
              (fun it => if it.id == existingItem.id then updated else it)
            if commitOk then
              ({ st with cartItems := bumped }, Except.ok updated)
            else
              (st, Except.error
                { status := 500, detail := "Error saving cart item." })
      | _ =>
          (st, Except.error
            { status := 500, detail := "Multiple rows were found" })

/-! ### Cart → order conversion (`src/routes/product.py`, `create_order`) -/

/-- The cart items of one cart (the `cart.cart_items` relationship). -/
def cartItemsOf (st : State) (cartId : Nat) : List CartItem :=
  st.cartItems.filter (fun it => it.cartId == cartId)

/-- The product a cart item references. -/
def productOf (st : State) (it : CartItem) : Option Product :=
  st.products.find? (fun p => p.id == it.productId)

/-- The unhandled `TypeError` raised when SQLAlchemy fires
`OrderItemModel`'s `@validates("quantity")` hook: the hook is declared
`validate_quantity(self, value)` (models/product.py:179-183) but SQLAlchemy
invokes validators as `(self, key, value)` — compare the correct
three-parameter forms on `CartItemModel.validate_quantity` and
`OrderModel.validate_total_price` in the same file. -/
def orderItemValidatorTypeError : HttpError :=
  { status := 500,
    detail := "TypeError: validate_quantity() takes 2 positional arguments but 3 were given" }

/-- The loop body of `create_order`: walks the cart items in order; the
first item whose product is gone raises 404, the first non-positive
quantity raises 400; otherwise the loop constructs
`OrderItemModel(product_id=..., quantity=..., price_at_order_time=...)` —
and that constructor always raises: assigning the `quantity` keyword fires
the two-parameter `@validates` hook with SQLAlchemy's three arguments, an
unhandled `TypeError` (HTTP 500). The loop therefore completes only on an
empty item list; the pending-items/total accumulation the route intends is
unreachable. -/
def buildOrderItems (st : State) : List CartItem →
    Except HttpError (List (Nat × Int × Int) × Int)
  | [] => Except.ok ([], 0)
  | it :: _ =>
    match productOf st it with
    | none =>
        Except.error
          { status := 404,
            detail := "Product ID " ++ toString it.productId ++ " not found." }
    | some p =>
      if it.quantity ≤ 0 then
        Except.error
          { status := 400,
            detail := "Invalid quantity for product " ++ toString p.id ++ "." }
      else
        Except.error orderItemValidatorTypeError

/-- A fresh autoincrement id for `orders`. -/
def freshOrderId (st : State) : Nat :=
  (st.orders.map (fun o => o.id)).foldr max 0 + 1

/-- `create_order`: loads the user's cart with items and products in one
read (first cart row); 400 "Cart is empty or not found." when there is no
cart or it has no items; per-item checks via `buildOrderItems`; 400 when
the total is non-positive; then persists one `Order` with status
PROCESSING and one `OrderItem` per cart item, deletes the cart (its items
go with it, `cascade="all, delete-orphan"`), and commits both as one unit
(`commitOk = false` models the transaction failing to commit: everything
rolls back and the state is unchanged). Because `buildOrderItems` succeeds
only on an empty item list — which the empty-cart guard has already
excluded — every branch from the non-positive-total check onward is dead
code in the program, mirrored faithfully here: the source lines exist but
can never run. -/
def create_order (st : State) (userId : Nat) (commitOk : Bool) :
    State × Except HttpError Order :=
  match st.carts.find? (fun c => c.userId == userId) with
  | none =>
      (st, Except.error { status := 400, detail := "Cart is empty or not found." })
  | some cart =>
    let items := cartItemsOf st cart.id
    if items.isEmpty then
      (st, Except.error { status := 400, detail := "Cart is empty or not found." })
    else
      match buildOrderItems st items with
      | Except.error e => (st, Except.error e)
      | Except.ok (pending, totalPrice) =>
        if totalPrice ≤ 0 then
          (st, Except.error
            { status := 400, detail := "Total price must be greater than 0." })
        else
          let orderId := freshOrderId st
          let order : Order :=
            { id := orderId, userId := userId, status := OrderStatus.processing,
              total_price := totalPrice }
          let newOrderItems := pending.map
            (fun (t : Nat × Int × Int) =>
              ({ orderId := orderId, productId := t.1,
                 quantity := t.2.1, price_at_order_time := t.2.2 } : OrderItem))
          if commitOk then
            ({ st with
                orders := st.orders ++ [order],
                orderItems := st.orderItems ++ newOrderItems,
                carts := st.carts.filter (fun c => c.id != cart.id),
                cartItems := st.cartItems.filter (fun it => it.cartId != cart.id) },
             Except.ok order)
          else
            (st, Except.error { status := 500, detail := "Store failure." })

/-! ### Product update (`src/routes/product.py`, `update_product`) -/

/-- `ProductUpdateSchema`: every field optional; `none` models a field not
provided (`exclude_unset`). -/
structure ProductUpdate where
  name : Option String
  description : Option String
  price : Option Int
  stock : Option StockStatus
  categoryId : Option Nat
  imageUrl : Option String
  deriving DecidableEq, Repr

/-- The field-patch loop of `update_product`: set each provided field. -/
def applyProductUpdate (p : Product) (u : ProductUpdate) : Product :=
  { p with
    name := u.name.getD p.name,
    description := match u.description with
                   | some d => some d
                   | none => p.description,
    price := u.price.getD p.price,
    stock := u.stock.getD p.stock,
    categoryId := u.categoryId.getD p.categoryId,
    imageUrl := match u.imageUrl with
                | some i => some i
                | none => p.imageUrl }

/-- `update_product`: 404 when the product is missing; 404 when a provided
`category_id` matches no category; 400 when a provided, changed name
collides with another product; otherwise patches the provided fields and
commits (`commitOk = false`: rollback, 400 database error). It only ever
writes the `products` table. -/
def update_product (st : State) (productId : Nat) (u : ProductUpdate)
    (commitOk : Bool) : State × Except HttpError Product :=
  match st.products.find? (fun p => p.id == productId) with
  | none => (st, Except.error { status := 404, detail := "Product not found." })
  | some product =>
    if u.categoryId.isSome
        && (st.categories.find?
              (fun c => some c.id == u.categoryId)).isNone then
      (st, Except.error { status := 404, detail := "Category not found." })
    else if (match u.name with
             | some n =>
                 n != "" && n != product.name
                   && (st.products.find? (fun (p : Product) => p.name == n)).isSome
             | none => false) then
      (st, Except.error
        { status := 400, detail := "Product with this name already exists." })
    else
      let patched := applyProductUpdate product u
      let written := st.products.map
        (fun (p : Product) => if p.id == product.id then patched else p)
      if commitOk then
        ({ st with products := written }, Except.ok patched)
      else
        (st, Except.error { status := 400, detail := "Database error" })

/-! ## Lemmas about dict semantics -/

/-- Replacing the key-`k` pairs does not affect a `find?` at another key. -/
lemma find?_map_setKey (m : Claims) (k k' : String) (v : JVal) (h : k' ≠ k) :
    (m.map (fun q => if q.1 == k then (k, v) else q)).find? (fun q => q.1 == k')
      = m.find? (fun q => q.1 == k') := by
  induction m with
  | nil => rfl
  | cons q qs ih =>
    rw [List.map_cons]
    by_cases hq : q.1 = k
    · rw [if_pos (by simpa using hq)]
      rw [List.find?_cons_of_neg _ (by simp only [beq_iff_eq]; exact fun he => h he.symm)]
      rw [List.find?_cons_of_neg _ (by simp only [beq_iff_eq, hq]; exact fun he => h he.symm)]
      exact ih
    · rw [if_neg (by simpa using hq)]
      by_cases hq' : q.1 = k'
      · rw [List.find?_cons_of_pos _ (by simpa using hq'),
            List.find?_cons_of_pos _ (by simpa using hq')]
      · rw [List.find?_cons_of_neg _ (by simpa using hq'),
            List.find?_cons_of_neg _ (by simpa using hq')]
        exact ih

/-- Appending a key-`k` pair does not affect a `find?` at another key. -/
lemma find?_append_setKey (m : Claims) (k k' : String) (v : JVal) (h : k' ≠ k) :
    (m ++ [(k, v)]).find? (fun q => q.1 == k') = m.find? (fun q => q.1 == k') := by
  induction m with
  | nil =>
    simp only [List.nil_append, List.find?_nil]
    exact List.find?_cons_of_neg _
      (by simp only [beq_iff_eq]; exact fun he => h he.symm)
  | cons q qs ih =>
    rw [List.cons_append]
    by_cases hq' : q.1 = k'
    · rw [List.find?_cons_of_pos _ (by simpa using hq'),
          List.find?_cons_of_pos _ (by simpa using hq')]
    · rw [List.find?_cons_of_neg _ (by simpa using hq'),
          List.find?_cons_of_neg _ (by simpa using hq')]
      exact ih

/-- `find?` at key `k` on the key-`k`-replaced map gives the new pair. -/
lemma find?_map_setKey_self (m : Claims) (k : String) (v : JVal)
    (hany : m.any (fun q => q.1 == k) = true) :
    (m.map (fun q => if q.1 == k then (k, v) else q)).find? (fun q => q.1 == k)
      = some (k, v) := by
  induction m with
  | nil => simp at hany
  | cons q qs ih =>
    rw [List.map_cons]
    by_cases hq : q.1 = k
    · rw [if_pos (by simpa using hq)]
      exact List.find?_cons_of_pos _ (by simp)
    · rw [if_neg (by simpa using hq)]
      rw [List.find?_cons_of_neg _ (by simpa using hq)]
      exact ih (by simpa [List.any_cons, hq] using hany)

/-- `find?` at key `k` after appending `(k, v)` to a `k`-free map. -/
lemma find?_append_setKey_self (m : Claims) (k : String) (v : JVal)
    (hnone : m.any (fun q => q.1 == k) = false) :
    (m ++ [(k, v)]).find? (fun q => q.1 == k) = some (k, v) := by
  induction m with
  | nil => simp
  | cons q qs ih =>
    rw [List.any_cons, Bool.or_eq_false_iff] at hnone
    rw [List.cons_append, List.find?_cons_of_neg _ (by simp [hnone.1])]
    exact ih hnone.2

/-- After `dictSet m k v`, looking up `k` gives `v`. -/
lemma dictGet_dictSet_self (m : Claims) (k : String) (v : JVal) :
    dictGet (dictSet m k v) k = some v := by
  by_cases hany : m.any (fun q => q.1 == k)
  · rw [dictSet, if_pos hany, dictGet, find?_map_setKey_self m k v hany]
    rfl
  · rw [Bool.not_eq_true] at hany
    rw [dictSet, if_neg (by simp [hany]), dictGet, find?_append_setKey_self m k v hany]
    rfl

/-- `dictSet m k v` does not change lookups at other keys. -/
lemma dictGet_dictSet_ne (m : Claims) (k k' : String) (v : JVal)
    (h : k' ≠ k) : dictGet (dictSet m k v) k' = dictGet m k' := by
  by_cases hany : m.any (fun q => q.1 == k)
  · simp only [dictSet, if_pos hany, dictGet, find?_map_setKey m k k' v h]
  · simp only [dictSet, if_neg hany, dictGet, find?_append_setKey m k k' v h]

/-! ## C2 — JWT issue/verify round trip -/

/-- C2 (amended): for either token kind, any claims map and any positive
ttl, verifying right after issuing succeeds and returns the issued claims
map extended with the `exp` claim set to issuance time + ttl — it agrees
with the input claims on every key other than `exp`, but is not the input
map itself when the input lacked an `exp` key; and verifying at any time
from expiry on fails with the Expired error (401 "Token has expired"), not
as Invalid. -/
theorem jwt_issue_verify_round_trip (m : JWTAuthManager) (claims : Claims)
    (ttl t0 t : Nat) (_httl : 0 < ttl) :
    (t < t0 + ttl →
      m.decode_access_token (m.create_access_token claims (some ttl) t0) t
          = Except.ok (dictSet claims "exp" (JVal.n (t0 + ttl)))
        ∧ m.decode_refresh_token (m.create_refresh_token claims (some ttl) t0) t
          = Except.ok (dictSet claims "exp" (JVal.n (t0 + ttl))))
    ∧ (∀ k, k ≠ "exp" →
        dictGet (dictSet claims "exp" (JVal.n (t0 + ttl))) k = dictGet claims k)
    ∧ (claims.any (fun q => q.1 == "exp") = false →
        dictSet claims "exp" (JVal.n (t0 + ttl)) = claims ++ [("exp", JVal.n (t0 + ttl))])
    ∧ (t0 + ttl ≤ t →
      m.decode_access_token (m.create_access_token claims (some ttl) t0) t
          = Except.error { status := 401, detail := "Token has expired" }
        ∧ m.decode_refresh_token (m.create_refresh_token claims (some ttl) t0) t
          = Except.error { status := 401, detail := "Token has expired" }) := by
  have hexp := dictGet_dictSet_self claims "exp" (JVal.n (t0 + ttl))
  refine ⟨?_, ?_, ?_, ?_⟩
  · intro hlt
    have hnl : ¬ (t0 + ttl ≤ t) := by omega
    constructor
    · simp only [JWTAuthManager.decode_access_token, JWTAuthManager.create_access_token,
        JWTAuthManager.create_token, JWTAuthManager.decode_token, jwtDecode,
        Option.getD_some, ne_eq, not_true_eq_false, if_false, hexp, if_neg hnl]
    · simp only [JWTAuthManager.decode_refresh_token, JWTAuthManager.create_refresh_token,
        JWTAuthManager.create_token, JWTAuthManager.decode_token, jwtDecode,
        Option.getD_some, ne_eq, not_true_eq_false, if_false, hexp, if_neg hnl]
  · intro k hk
    exact dictGet_dictSet_ne claims "exp" k (JVal.n (t0 + ttl)) hk
  · intro hfree
    simp only [dictSet, hfree, Bool.false_eq_true, if_false]
  · intro hle
    constructor
    · simp only [JWTAuthManager.decode_access_token, JWTAuthManager.create_access_token,
        JWTAuthManager.create_token, JWTAuthManager.decode_token, jwtDecode,
        Option.getD_some, ne_eq, not_true_eq_false, if_false, hexp, if_pos hle]
    · simp only [JWTAuthManager.decode_refresh_token, JWTAuthManager.create_refresh_token,
        JWTAuthManager.create_token, JWTAuthManager.decode_token, jwtDecode,
        Option.getD_some, ne_eq, not_true_eq_false, if_false, hexp, if_pos hle]

/-- C2 witness: concrete instantiation of the round-trip theorem at
`claims = [("email", "a@b.c")]`, `ttl = 5`, issued at 0, verified at 3 and
at 10. -/
theorem jwt_issue_verify_round_trip_witness :
    (0 < 5 ∧ (3 : Nat) < 0 + 5 ∧ (0 + 5 : Nat) ≤ 10)
    ∧ testManager.decode_access_token
        (testManager.create_access_token [("email", JVal.s "a@b.c")] (some 5) 0) 3
      = Except.ok [("email", JVal.s "a@b.c"), ("exp", JVal.n 5)]
    ∧ testManager.decode_access_token
        (testManager.create_access_token [("email", JVal.s "a@b.c")] (some 5) 0) 10
      = Except.error { status := 401, detail := "Token has expired" } := by
  have h3 := jwt_issue_verify_round_trip testManager [("email", JVal.s "a@b.c")]
    5 0 3 (by decide)
  have h10 := jwt_issue_verify_round_trip testManager [("email", JVal.s "a@b.c")]
    5 0 10 (by decide)
  refine ⟨⟨by decide, by decide, by decide⟩, ?_, (h10.2.2.2 (by decide)).1⟩
  have := (h3.1 (by decide)).1
  rw [this, h3.2.2.1 (by decide)]
  rfl

/-- C2 counterexample: as literally stated the round trip fails — verifying
immediately after issuing returns the claims map extended with the `exp`
claim, which differs from the issued claims map (here the empty map). -/
theorem jwt_issue_verify_round_trip_counterexample :
    testManager.decode_access_token
        (testManager.create_access_token [] (some 5) 0) 0
      = Except.ok [("exp", JVal.n 5)]
    ∧ ([("exp", JVal.n 5)] : Claims) ≠ [] := by
  exact ⟨rfl, by decide⟩

/-! ## C6 — password strength policy -/

/-- C6: the strength check rejects a password iff it violates at least one
of the five rules (length ≥ 8, an uppercase letter, a lowercase letter, a
digit, a special character), and the rejection's error list contains
exactly the messages of the violated rules — each of the five messages is
present iff its rule is violated, and nothing else is ever reported. -/
theorem validate_password_policy (pw : String) :
    ((∃ errs, validate_password pw = Except.error errs) ↔
      (pw.length < 8
        ∨ pw.toList.any Char.isUpper = false
        ∨ pw.toList.any Char.isLower = false
        ∨ pw.toList.any Char.isDigit = false
        ∨ pw.toList.any (fun c => c ∈ passwordSpecialChars) = false))
    ∧ (∀ errs, validate_password pw = Except.error errs →
        (("Minimum 8 characters required" ∈ errs) ↔ pw.length < 8)
        ∧ (("Must contain at least one uppercase letter" ∈ errs) ↔
            pw.toList.any Char.isUpper = false)
        ∧ (("Must contain at least one lowercase letter" ∈ errs) ↔
            pw.toList.any Char.isLower = false)
        ∧ (("Must contain at least one digit" ∈ errs) ↔
            pw.toList.any Char.isDigit = false)
        ∧ (("Must contain at least one special character: @, $, !, %, *, ?, #, &" ∈ errs) ↔
            pw.toList.any (fun c => c ∈ passwordSpecialChars) = false)
        ∧ ∀ e ∈ errs,
            e ∈ (["Minimum 8 characters required",
                  "Must contain at least one uppercase letter",
                  "Must contain at least one lowercase letter",
                  "Must contain at least one digit",
                  "Must contain at least one special character: @, $, !, %, *, ?, #, &"] :
                 List String)) := by
  have hm1 : ∀ (c : Prop) [Decidable c] (msg a : String),
      (a ∈ (if c then [msg] else ([] : List String))) ↔ (c ∧ a = msg) := by
    intro c _ msg a; split <;> simp_all
  have hm2 : ∀ (c : Prop) [Decidable c] (msg a : String),
      (a ∈ (if c then ([] : List String) else [msg])) ↔ (¬c ∧ a = msg) := by
    intro c _ msg a; split <;> simp_all
  have hEiff : (passwordErrors pw = []) ↔
      ¬(pw.length < 8
        ∨ pw.toList.any Char.isUpper = false
        ∨ pw.toList.any Char.isLower = false
        ∨ pw.toList.any Char.isDigit = false
        ∨ pw.toList.any (fun c => c ∈ passwordSpecialChars) = false) := by
    unfold passwordErrors
    constructor
    · intro hE
      simp only [List.append_eq_nil] at hE
      obtain ⟨e1, e2, e3, e4, e5⟩ := hE
      intro hd
      rcases hd with h | h | h | h | h
      · rw [if_pos h] at e1; cases e1
      · rw [h] at e2; simp at e2
      · rw [h] at e3; simp at e3
      · rw [h] at e4; simp at e4
      · rw [h] at e5; simp at e5
    · intro hd
      push_neg at hd
      obtain ⟨h1, h2, h3, h4, h5⟩ := hd
      simp only [Bool.not_eq_false] at h2 h3 h4 h5
      rw [if_neg (by omega), h2, h3, h4, h5]
      simp
  constructor
  · unfold validate_password
    by_cases hE : passwordErrors pw = []
    · rw [if_pos (by simp [hE])]
      constructor
      · rintro ⟨errs, herr⟩; cases herr
      · intro hd; exact absurd hd (hEiff.mp hE)
    · rw [if_neg (by simp [hE])]
      constructor
      · intro _
        by_contra hd
        exact hE (hEiff.mpr hd)
      · intro _; exact ⟨_, rfl⟩
  · intro errs herr
    unfold validate_password at herr
    split at herr
    · cases herr
    · have herrs := (Except.error.injEq _ _).mp herr
      subst herrs
      unfold passwordErrors
      refine ⟨?_, ?_, ?_, ?_, ?_, ?_⟩
      · simp [List.mem_append, hm1, hm2]
      · simp [List.mem_append, hm1, hm2]
      · simp [List.mem_append, hm1, hm2]
      · simp [List.mem_append, hm1, hm2]
      · simp [List.mem_append, hm1, hm2]
      · intro e he
        simp only [List.mem_append, hm1, hm2] at he
        rcases he with ⟨_, rfl⟩ | ⟨_, rfl⟩ | ⟨_, rfl⟩ | ⟨_, rfl⟩ | ⟨_, rfl⟩ <;> simp

/-- C6 witness: `"abc"` violates the length, uppercase, digit and special
rules (and only those), and the error list reports exactly these four. -/
theorem validate_password_policy_witness :
    validate_password "abc"
      = Except.error
          ["Minimum 8 characters required",
           "Must contain at least one uppercase letter",
           "Must contain at least one digit",
           "Must contain at least one special character: @, $, !, %, *, ?, #, &"]
    ∧ ("Must contain at least one digit" ∈
        ["Minimum 8 characters required",
         "Must contain at least one uppercase letter",
         "Must contain at least one digit",
         "Must contain at least one special character: @, $, !, %, *, ?, #, &"])
    ∧ ¬ ("Must contain at least one lowercase letter" ∈
        (["Minimum 8 characters required",
          "Must contain at least one uppercase letter",
          "Must contain at least one digit",
          "Must contain at least one special character: @, $, !, %, *, ?, #, &"] :
         List String)) := by
  have h := (validate_password_policy "abc").2
    ["Minimum 8 characters required",
     "Must contain at least one uppercase letter",
     "Must contain at least one digit",
     "Must contain at least one special character: @, $, !, %, *, ?, #, &"]
    rfl
  exact ⟨rfl, h.2.2.2.1.mpr (by decide), fun hc => by
    have := h.2.2.1.mp hc
    simp at this⟩

/-! ## C7 — pagination -/

/-- On a non-empty table and a non-empty page slice, `get_product_list`
succeeds and returns the offset/limit slice with the computed links. -/
lemma get_product_list_ok (products : List Product) (page perPage : Nat)
    (h0 : products.length ≠ 0)
    (hne : (products.drop ((page - 1) * perPage)).take perPage ≠ []) :
    get_product_list products page perPage
      = Except.ok
        { products := (products.drop ((page - 1) * perPage)).take perPage,
          prev_page :=
            if page > 1 then
              some ("/products/?page=" ++ toString (page - 1)
                    ++ "&per_page=" ++ toString perPage)
            else none,
          next_page :=
            if page < (products.length + perPage - 1) / perPage then
              some ("/products/?page=" ++ toString (page + 1)
                    ++ "&per_page=" ++ toString perPage)
            else none,
          total_pages := (products.length + perPage - 1) / perPage,
          total_items := products.length } := by
  simp only [get_product_list]
  rw [if_neg h0, if_neg (by simpa [List.isEmpty_iff] using hne)]

/-- C7: on every successful paginated product-list response,
`total_pages = ceil(total_items / per_page)`, `prev_page` is null exactly
when `page = 1`, `next_page` is null exactly when `page ≥ total_pages`, and
the page holds `min(per_page, total_items - offset)` items; in particular
with 24 items and `per_page = 10`, page 1 returns 10 items with a null
`prev_page` and `next_page` linking page 2, and page 3 returns 4 items with
a null `next_page`. -/
theorem get_product_list_pagination :
    (∀ (products : List Product) (page perPage : Nat) (resp : ProductResponse),
        1 ≤ page → 1 ≤ perPage →
        get_product_list products page perPage = Except.ok resp →
        resp.total_items = products.length
        ∧ resp.total_pages = (products.length + perPage - 1) / perPage
        ∧ (resp.prev_page = none ↔ page = 1)
        ∧ (resp.next_page = none ↔ resp.total_pages ≤ page)
        ∧ resp.products.length
            = min perPage (products.length - (page - 1) * perPage))
    ∧ (∀ products : List Product, products.length = 24 →
        (get_product_list products 1 10
            = Except.ok
              { products := products.take 10,
                prev_page := none,
                next_page := some "/products/?page=2&per_page=10",
                total_pages := 3, total_items := 24 }
          ∧ (products.take 10).length = 10)
        ∧ (get_product_list products 3 10
            = Except.ok
              { products := (products.drop 20).take 10,
                prev_page := some "/products/?page=2&per_page=10",
                next_page := none,
                total_pages := 3, total_items := 24 }
          ∧ ((products.drop 20).take 10).length = 4)) := by
  constructor
  · intro products page perPage resp hpage hpp hok
    simp only [get_product_list] at hok
    split at hok
    · cases hok
    · split at hok
      · cases hok
      · rename_i hlen hslice
        have hresp := (Except.ok.injEq _ _).mp hok
        subst hresp
        refine ⟨rfl, rfl, ?_, ?_, ?_⟩
        · by_cases hp : 1 < page <;> simp [hp] <;> omega
        · by_cases hq : page < (products.length + perPage - 1) / perPage <;>
            simp [hq] <;> omega
        · simp [List.length_take, List.length_drop]
  · intro products h24
    have h0 : products.length ≠ 0 := by omega
    constructor
    · have hlen1 : ((products.drop ((1 - 1) * 10)).take 10).length = 10 := by
        simp [List.length_take, List.length_drop, h24]
      have hne1 : (products.drop ((1 - 1) * 10)).take 10 ≠ [] := by
        intro hc; rw [hc] at hlen1; cases hlen1
      have := get_product_list_ok products 1 10 h0 hne1
      rw [h24] at this
      norm_num at this
      refine ⟨?_, by simpa [h24] using hlen1⟩
      rw [this]
      rfl
    · have hlen3 : ((products.drop ((3 - 1) * 10)).take 10).length = 4 := by
        simp [List.length_take, List.length_drop, h24]
      have hne3 : (products.drop ((3 - 1) * 10)).take 10 ≠ [] := by
        intro hc; rw [hc] at hlen3; cases hlen3
      have := get_product_list_ok products 3 10 h0 hne3
      rw [h24] at this
      norm_num at this
      refine ⟨?_, by simp at hlen3 ⊢; exact hlen3⟩
      rw [this]
      rfl

/-- A concrete catalog of 24 products. -/
def sampleProducts : List Product :=
  (List.range 24).map (fun i =>
    { id := i, name := toString i, description := none, price := 100,
      stock := StockStatus.available, categoryId := 1, imageUrl := none })

/-- C7 witness: the pagination theorem instantiated on a concrete catalog of
24 products at `per_page = 10`, page 1. -/
theorem get_product_list_pagination_witness :
    get_product_list sampleProducts 1 10
      = Except.ok
        { products := sampleProducts.take 10,
          prev_page := none,
          next_page := some "/products/?page=2&per_page=10",
          total_pages := 3, total_items := 24 } := by
  exact ((get_product_list_pagination).2 sampleProducts (by rfl)).1.1

/-! ## C8 — price snapshots are decoupled from product updates -/

/-- C8: updating a product (any fields, any outcome, commit success or
failure) never writes the `orders` or `order_items` tables — in particular
the `price_at_order_time` stored on every existing OrderItem is exactly
what it was before the update. -/
theorem update_product_preserves_snapshots (st : State) (productId : Nat)
    (u : ProductUpdate) (commitOk : Bool) :
    ((update_product st productId u commitOk).1).orderItems = st.orderItems
    ∧ ((update_product st productId u commitOk).1).orders = st.orders
    ∧ ((update_product st productId u commitOk).1).orderItems.map
        (fun oi => oi.price_at_order_time)
      = st.orderItems.map (fun oi => oi.price_at_order_time) := by
  unfold update_product
  refine ⟨?_, ?_, ?_⟩ <;> (repeat (first | rfl | split))

/-! ## Concrete fixtures -/

/-- An active user. -/
def userAlice : User :=
  { id := 1, email := "alice@example.com", hashedPassword := "hp",
    isActive := true, groupId := 1 }

/-- An inactive user. -/
def userInactive : User :=
  { id := 2, email := "bob@example.com", hashedPassword := "hp",
    isActive := false, groupId := 1 }

/-- A store holding only the active user. -/
def activeUserState : State := { emptyState with users := [userAlice] }

/-- A store holding only the inactive user. -/
def inactiveUserState : State := { emptyState with users := [userInactive] }

/-- The refresh token the login flow would store for the active user. -/
def loginRefreshToken : Token :=
  testManager.create_refresh_token
    [("user_id", JVal.s "1"), ("email", JVal.s "alice@example.com")] none 0

/-- A store holding the active user and their stored refresh token. -/
def refreshState : State :=
  { emptyState with
    users := [userAlice],
    refreshTokens := [{ userId := 1, token := loginRefreshToken,
                        expiresAt := 604800 }] }

/-! ## C4 — password-reset request responses -/

/-- An email that matches no user, or an inactive user, gets the generic
200 acknowledgement and no state change. -/
lemma request_reset_generic (st : State) (m : JWTAuthManager) (e : String)
    (n : Nat) (b : Bool)
    (h : ∀ u, st.users.find? (fun x => x.email == e) = some u →
      u.isActive = false) :
    request_password_reset_token st m e n b
      = (st, Except.ok genericResetMessage) := by
  unfold request_password_reset_token
  cases hf : st.users.find? (fun x => x.email == e) with
  | none => rfl
  | some u => simp [h u hf]

/-- The token issued for user `u` at time `n` by a reset request. -/
def issuedResetToken (m : JWTAuthManager) (u : User) (n : Nat) :
    PasswordResetToken :=
  PasswordResetToken.create u.id
    (m.create_access_token
      [("sub", JVal.s (toString u.id)), ("email", JVal.s u.email),
       ("type", JVal.s "password_reset")] (some 3600) n) 1 n

/-- On an active user with a successful commit, the reset request replaces
the user's reset tokens and acknowledges with the success message. -/
lemma request_reset_success (st : State) (m : JWTAuthManager) (e : String)
    (n : Nat) (u : User)
    (hf : st.users.find? (fun x => x.email == e) = some u)
    (hact : u.isActive = true) :
    request_password_reset_token st m e n true
      = ({ st with resetTokens :=
             st.resetTokens.filter (fun rt => rt.userId != u.id)
               ++ [issuedResetToken m u n] },
         Except.ok successResetMessage) := by
  unfold request_password_reset_token
  rw [hf]
  simp [hact, issuedResetToken]

/-- C4 (amended): any two runs of the password-reset request whose email
matches no user or an inactive user both return HTTP 200 with the identical
generic acknowledgement and no state change — those two outcomes are
indistinguishable; but a run on an existing active user returns HTTP 200
with a different message, so a caller can distinguish the
token-actually-issued outcome from the generic one. -/
theorem password_reset_request_enumeration (st1 st2 : State)
    (m1 m2 : JWTAuthManager) (e1 e2 : String) (n1 n2 : Nat) (b1 b2 : Bool)
    (h1 : ∀ u, st1.users.find? (fun x => x.email == e1) = some u →
      u.isActive = false)
    (h2 : ∀ u, st2.users.find? (fun x => x.email == e2) = some u →
      u.isActive = false) :
    request_password_reset_token st1 m1 e1 n1 b1
      = (st1, Except.ok genericResetMessage)
    ∧ request_password_reset_token st2 m2 e2 n2 b2
      = (st2, Except.ok genericResetMessage)
    ∧ (∀ (st : State) (m : JWTAuthManager) (e : String) (n : Nat) (u : User),
        st.users.find? (fun x => x.email == e) = some u → u.isActive = true →
        (request_password_reset_token st m e n true).2
          = Except.ok successResetMessage)
    ∧ successResetMessage ≠ genericResetMessage := by
  refine ⟨request_reset_generic st1 m1 e1 n1 b1 h1,
          request_reset_generic st2 m2 e2 n2 b2 h2, ?_, by decide⟩
  intro st m e n u hf hact
  rw [request_reset_success st m e n u hf hact]

/-- C4 witness: the enumeration theorem instantiated on an empty store and
a store holding only the inactive user, plus the active-user run. -/
theorem password_reset_request_enumeration_witness :
    request_password_reset_token emptyState testManager "alice@example.com" 0 true
      = (emptyState, Except.ok genericResetMessage)
    ∧ request_password_reset_token inactiveUserState testManager
        "bob@example.com" 0 true
      = (inactiveUserState, Except.ok genericResetMessage)
    ∧ (request_password_reset_token activeUserState testManager
        "alice@example.com" 0 true).2 = Except.ok successResetMessage := by
  have h := password_reset_request_enumeration emptyState inactiveUserState
    testManager testManager "alice@example.com" "bob@example.com" 0 0 true true
    (by intro u hu; cases hu) (by intro u hu; cases hu; rfl)
  exact ⟨h.1, h.2.1, h.2.2.1 activeUserState testManager "alice@example.com" 0
    userAlice rfl rfl⟩

/-- C4 counterexample: the claim as stated is false — the two responses are
both HTTP 200 but carry different messages, so the caller can tell an
active-user run from a no-such-user run. -/
theorem password_reset_request_enumeration_counterexample :
    (request_password_reset_token emptyState testManager
        "alice@example.com" 0 true).2 = Except.ok genericResetMessage
    ∧ (request_password_reset_token activeUserState testManager
        "alice@example.com" 0 true).2 = Except.ok successResetMessage
    ∧ genericResetMessage ≠ successResetMessage := by
  exact ⟨rfl, rfl, by decide⟩

/-! ## C3 — single active reset token per user -/

/-- The reset tokens owned by one user. -/
def resetTokensFor (st : State) (uid : Nat) : List PasswordResetToken :=
  st.resetTokens.filter (fun rt => rt.userId == uid)

/-- The reset request on an inactive or missing user, or with a failed
commit on an active user, leaves the store unchanged. -/
lemma request_reset_commit_fail (st : State) (m : JWTAuthManager) (e : String)
    (n : Nat) (u : User)
    (hf : st.users.find? (fun x => x.email == e) = some u)
    (hact : u.isActive = true) :
    request_password_reset_token st m e n false
      = (st, Except.error
          { status := 500,
            detail := "An error occurred while processing the request." }) := by
  unfold request_password_reset_token
  rw [hf]
  simp [hact]

/-- After deleting a user's rows and appending one fresh row of theirs,
filtering by that user gives exactly the fresh row. -/
lemma filter_replace_self (l : List PasswordResetToken) (uid : Nat)
    (tk : PasswordResetToken) (htk : tk.userId = uid) :
    (l.filter (fun rt => rt.userId != uid) ++ [tk]).filter
        (fun rt => rt.userId == uid) = [tk] := by
  rw [List.filter_append]
  have h1 : (l.filter (fun rt => rt.userId != uid)).filter
      (fun rt => rt.userId == uid) = [] := by
    rw [List.filter_eq_nil_iff]
    intro a ha
    have := List.of_mem_filter ha
    simp only [bne_iff_ne, ne_eq] at this
    simp [this]
  have h2 : [tk].filter (fun rt => rt.userId == uid) = [tk] := by simp [htk]
  rw [h1, h2, List.nil_append]

/-- The delete-then-insert for one user does not change another user's
rows. -/
lemma filter_replace_other (l : List PasswordResetToken) (uid v : Nat)
    (tk : PasswordResetToken) (htk : tk.userId = uid) (hv : v ≠ uid) :
    (l.filter (fun rt => rt.userId != uid) ++ [tk]).filter
        (fun rt => rt.userId == v)
      = l.filter (fun rt => rt.userId == v) := by
  rw [List.filter_append]
  have h2 : [tk].filter (fun rt => rt.userId == v) = [] := by
    simp [htk, Ne.symm hv]
  rw [h2, List.append_nil, List.filter_filter]
  apply List.filter_congr
  intro a _
  by_cases h : a.userId = v
  · simp [h, hv]
  · simp [h]

/-- C3: on an active user, a completed reset request leaves that user with
exactly one reset token — the freshly issued one, valid for one hour —
while other users' tokens are untouched; on any store satisfying the
at-most-one-token-per-user invariant, any request (any email, any commit
outcome) preserves the invariant; and running a second request supersedes
the first token: only the second-issued token remains. -/
theorem password_reset_single_token (st : State) (m : JWTAuthManager)
    (email : String) (now : Nat) (u : User)
    (hu : st.users.find? (fun x => x.email == email) = some u)
    (hact : u.isActive = true) :
    resetTokensFor ((request_password_reset_token st m email now true).1) u.id
      = [issuedResetToken m u now]
    ∧ (issuedResetToken m u now).expiresAt = now + 3600
    ∧ (∀ v, v ≠ u.id →
        resetTokensFor ((request_password_reset_token st m email now true).1) v
          = resetTokensFor st v)
    ∧ (∀ (st2 : State) (e2 : String) (n2 : Nat) (b2 : Bool),
        (∀ v, (resetTokensFor st2 v).length ≤ 1) →
        ∀ v, (resetTokensFor
            ((request_password_reset_token st2 m e2 n2 b2).1) v).length ≤ 1)
    ∧ (∀ now2,
        resetTokensFor
          ((request_password_reset_token
              ((request_password_reset_token st m email now true).1)
              m email now2 true).1) u.id
          = [issuedResetToken m u now2]) := by
  have hsucc := request_reset_success st m email now u hu hact
  refine ⟨?_, rfl, ?_, ?_, ?_⟩
  · rw [hsucc]
    exact filter_replace_self st.resetTokens u.id (issuedResetToken m u now) rfl
  · intro v hv
    rw [hsucc]
    exact filter_replace_other st.resetTokens u.id v (issuedResetToken m u now)
      rfl hv
  · intro st2 e2 n2 b2 hinv v
    by_cases hg : ∀ u', st2.users.find? (fun x => x.email == e2) = some u' →
        u'.isActive = false
    · rw [request_reset_generic st2 m e2 n2 b2 hg]
      exact hinv v
    · push_neg at hg
      obtain ⟨u2, hf2, hact2⟩ := hg
      simp only [ne_eq, Bool.not_eq_false] at hact2
      cases b2 with
      | false =>
        rw [request_reset_commit_fail st2 m e2 n2 u2 hf2 hact2]
        exact hinv v
      | true =>
        rw [request_reset_success st2 m e2 n2 u2 hf2 hact2]
        by_cases hv : v = u2.id
        · subst hv
          rw [show resetTokensFor
                { st2 with resetTokens :=
                    st2.resetTokens.filter (fun rt => rt.userId != u2.id)
                      ++ [issuedResetToken m u2 n2] } u2.id
              = (st2.resetTokens.filter (fun rt => rt.userId != u2.id)
                  ++ [issuedResetToken m u2 n2]).filter
                  (fun rt => rt.userId == u2.id) from rfl]
          rw [filter_replace_self st2.resetTokens u2.id
            (issuedResetToken m u2 n2) rfl]
          exact Nat.le_refl 1
        · rw [show resetTokensFor
                { st2 with resetTokens :=
                    st2.resetTokens.filter (fun rt => rt.userId != u2.id)
                      ++ [issuedResetToken m u2 n2] } v
              = (st2.resetTokens.filter (fun rt => rt.userId != u2.id)
                  ++ [issuedResetToken m u2 n2]).filter
                  (fun rt => rt.userId == v) from rfl]
          rw [filter_replace_other st2.resetTokens u2.id v
            (issuedResetToken m u2 n2) rfl hv]
          exact hinv v
  · intro now2
    rw [hsucc]
    have hu' : ({ st with resetTokens :=
        st.resetTokens.filter (fun rt => rt.userId != u.id)
          ++ [issuedResetToken m u now] } : State).users.find?
          (fun x => x.email == email) = some u := hu
    rw [request_reset_success _ m email now2 u hu' hact]
    exact filter_replace_self _ u.id (issuedResetToken m u now2) rfl

/-- C3 witness: on the concrete store with the active user, a request at
time 0 leaves exactly the one freshly issued token for that user. -/
theorem password_reset_single_token_witness :
    resetTokensFor ((request_password_reset_token activeUserState testManager
        "alice@example.com" 0 true).1) userAlice.id
      = [issuedResetToken testManager userAlice 0] := by
  exact (password_reset_single_token activeUserState testManager
    "alice@example.com" 0 userAlice rfl rfl).1

/-! ## C5 — duplicate cart add aggregates quantities -/

/-- Mapping an id-keyed in-place update over rows none of which match the
filter keeps the filter empty. -/
lemma filter_map_update_nil (l : List CartItem) (a b : CartItem)
    (p : CartItem → Bool)
    (hnil : ∀ x ∈ l, p x = false)
    (hid : ∀ x ∈ l, x.id ≠ a.id) :
    (l.map (fun x => if x.id == a.id then b else x)).filter p = [] := by
  induction l with
  | nil => rfl
  | cons x xs ih =>
    rw [List.map_cons,
      if_neg (by simpa using hid x (List.mem_cons_self x xs)),
      List.filter_cons_of_neg (by simp [hnil x (List.mem_cons_self x xs)])]
    exact ih (fun y hy => hnil y (List.mem_cons_of_mem _ hy))
      (fun y hy => hid y (List.mem_cons_of_mem _ hy))

/-- In-place update of the unique row matching a filter: afterwards the
filter selects exactly the updated row. -/
lemma filter_map_update (l : List CartItem) (a b : CartItem)
    (p : CartItem → Bool)
    (hf : l.filter p = [a])
    (hid : ∀ x ∈ l, x.id = a.id → x = a)
    (hb : p b = true) :
    (l.map (fun x => if x.id == a.id then b else x)).filter p = [b] := by
  induction l with
  | nil => simp at hf
  | cons x xs ih =>
    by_cases hpx : p x = true
    · rw [List.filter_cons_of_pos hpx] at hf
      injection hf with hxa hrest
      have hnil : ∀ y ∈ xs, p y = false := by
        intro y hy
        by_contra hcy
        have hmem : y ∈ xs.filter p :=
          List.mem_filter.mpr ⟨hy, by simpa using hcy⟩
        rw [hrest] at hmem
        exact absurd hmem (List.not_mem_nil y)
      have hidxs : ∀ y ∈ xs, y.id ≠ a.id := by
        intro y hy hcy
        have hya : y = a := hid y (List.mem_cons_of_mem _ hy) hcy
        have hpy := hnil y hy
        rw [hya, ← hxa] at hpy
        rw [hpy] at hpx
        exact absurd hpx (by decide)
      rw [List.map_cons, if_pos (by simp [hxa]),
        List.filter_cons_of_pos hb, filter_map_update_nil xs a b p hnil hidxs]
    · rw [List.filter_cons_of_neg hpx] at hf
      have hxa : x.id ≠ a.id := by
        intro hcx
        have hx : x = a := hid x (List.mem_cons_self x xs) hcx
        have ha : a ∈ xs.filter p := by
          rw [hf]; exact List.mem_singleton_self a
        have hpa := List.of_mem_filter ha
        rw [← hx] at hpa
        exact hpx hpa
      rw [List.map_cons, if_neg (by simpa using hxa),
        List.filter_cons_of_neg hpx]
      exact ih hf (fun y hy => hid y (List.mem_cons_of_mem _ hy))

/-- C5: adding a product already present in the user's cart (as the unique
row `item` for that `(cart, product)` pair, with row ids unique) increments
that row's quantity in place: the call succeeds (no duplicate-key failure),
afterwards exactly one row matches the `(cart, product)` pair and its
quantity is the sum of both additions, and the table's row count is
unchanged (no second row is ever created). -/
theorem add_item_duplicate_aggregates (st : State) (userId productId : Nat)
    (q2 : Int) (cart : Cart) (item : CartItem)
    (hc : st.carts.find? (fun c => c.userId == userId) = some cart)
    (hp : (st.products.find? (fun p => p.id == productId)).isSome)
    (hone : st.cartItems.filter
        (fun it => it.cartId == cart.id && it.productId == productId) = [item])
    (hid : ∀ x ∈ st.cartItems, x.id = item.id → x = item)
    (hq1 : 0 < item.quantity) (hq2 : 0 < q2) :
    add_item_to_user_cart st userId productId q2 true
      = ({ st with cartItems :=
             (st.cartItems.map (fun x => if x.id == item.id
               then { item with quantity := item.quantity + q2 } else x)) },
         Except.ok { item with quantity := item.quantity + q2 })
    ∧ ((add_item_to_user_cart st userId productId q2 true).1).cartItems.filter
        (fun it => it.cartId == cart.id && it.productId == productId)
      = [{ item with quantity := item.quantity + q2 }]
    ∧ ((add_item_to_user_cart st userId productId q2 true).1).cartItems.length
      = st.cartItems.length := by
  obtain ⟨prod, hprod⟩ := Option.isSome_iff_exists.mp hp
  have hpitem : (item.cartId == cart.id && item.productId == productId) = true := by
    have : item ∈ st.cartItems.filter
        (fun it => it.cartId == cart.id && it.productId == productId) := by
      rw [hone]; exact List.mem_singleton_self item
    exact (List.mem_filter.mp this).2
  have heq : add_item_to_user_cart st userId productId q2 true
      = ({ st with cartItems :=
             (st.cartItems.map (fun x => if x.id == item.id
               then { item with quantity := item.quantity + q2 } else x)) },
         Except.ok { item with quantity := item.quantity + q2 }) := by
    unfold add_item_to_user_cart
    simp only [hc, hprod, hone]
    rw [if_neg (by omega)]
    simp
  refine ⟨heq, ?_, ?_⟩
  · rw [heq]
    exact filter_map_update st.cartItems item
      { item with quantity := item.quantity + q2 }
      (fun it => it.cartId == cart.id && it.productId == productId)
      hone hid hpitem
  · rw [heq]
    exact List.length_map st.cartItems _

/-- A product sitting in the concrete cart below. -/
def cartProduct : Product :=
  { id := 7, name := "WIDGET", description := none, price := 250,
    stock := StockStatus.available, categoryId := 1, imageUrl := none }

/-- The concrete cart of the active user. -/
def cartAlice : Cart := { id := 3, userId := 1 }

/-- The concrete cart row: product 7, quantity 2. -/
def itemAlice : CartItem := { id := 11, cartId := 3, productId := 7, quantity := 2 }

/-- A store with the active user, one product, one cart and one cart row. -/
def cartState : State :=
  { emptyState with
    users := [userAlice], products := [cartProduct],
    carts := [cartAlice], cartItems := [itemAlice] }

/-- C5 witness: adding 5 more of product 7 to the concrete cart leaves the
single row with quantity 7. -/
theorem add_item_duplicate_aggregates_witness :
    add_item_to_user_cart cartState 1 7 5 true
      = ({ cartState with
           cartItems := [{ itemAlice with quantity := 7 }] },
         Except.ok { itemAlice with quantity := 7 }) := by
  exact (add_item_duplicate_aggregates cartState 1 7 5 cartAlice itemAlice
    rfl (by decide) rfl (by decide) (by decide) (by decide)).1

/-! ## C1 — cart → order conversion -/

/-- C1: the claimed conversion never happens. For every user whose cart
exists and has at least one item, once the first item passes the
product-exists and positive-quantity checks the route dies constructing the
first `OrderItemModel`: its `@validates` hooks take `(self, value)` where
SQLAlchemy passes `(self, key, value)`, so POST /orders raises an unhandled
`TypeError` (HTTP 500) with the store unchanged — no Order, no OrderItems,
and the cart and its items intact (regardless of whether the commit would
have succeeded); the empty-cart path still fails 400 "Cart is empty or not
found." with no state change, as claimed. -/
theorem create_order_conversion_bug (st : State) (userId : Nat) (cart : Cart)
    (it : CartItem) (rest : List CartItem) (b : Bool)
    (hc : st.carts.find? (fun c => c.userId == userId) = some cart)
    (hitems : cartItemsOf st cart.id = it :: rest)
    (hprod : (productOf st it).isSome)
    (hqty : 0 < it.quantity) :
    create_order st userId b = (st, Except.error orderItemValidatorTypeError)
    ∧ (∀ (st2 : State) (u2 : Nat) (b2 : Bool),
        (∀ c, st2.carts.find? (fun c => c.userId == u2) = some c →
          cartItemsOf st2 c.id = []) →
        create_order st2 u2 b2
          = (st2, Except.error
              { status := 400, detail := "Cart is empty or not found." })) := by
  constructor
  · obtain ⟨p, hp⟩ := Option.isSome_iff_exists.mp hprod
    have hb : buildOrderItems st (cartItemsOf st cart.id)
        = Except.error orderItemValidatorTypeError := by
      rw [hitems]
      simp only [buildOrderItems, hp]
      rw [if_neg (by omega)]
    have hnotempty : ¬ (cartItemsOf st cart.id).isEmpty = true := by
      rw [hitems]; simp
    unfold create_order
    simp only [hc, hb]
    rw [if_neg hnotempty]
  · intro st2 u2 b2 hempty
    unfold create_order
    cases hf : st2.carts.find? (fun c => c.userId == u2) with
    | none => rfl
    | some c =>
      simp only [hf]
      rw [if_pos (by simp [List.isEmpty_iff, hempty c hf])]

/-- C1 witness: on the concrete one-item cart (existing product, quantity
2) the conversion raises the validator TypeError and leaves the store —
cart and item included — unchanged. -/
theorem create_order_conversion_bug_witness :
    create_order cartState 1 true
      = (cartState, Except.error orderItemValidatorTypeError) := by
  exact (create_order_conversion_bug cartState 1 cartAlice itemAlice [] true
    rfl rfl (by decide) (by decide)).1

/-! ## C9 — refresh endpoint statuses -/

/-- C9: concrete evaluations of the refresh endpoint. An expired refresh
token is answered with 401 "Token has expired" (the `HTTPException` raised
by `_decode_token` propagates; the route's `except SQLAlchemyError` never
fires), not with the HTTP 400 documented in the route's own
docstring/responses map; a wrongly-signed token gets 401 "Invalid token";
a validly signed but unstored token gets 401 "Refresh token not found.";
a stored token whose user is gone gets 404; and the success path returns
the new access token leaving the store — including the stored refresh
token row — unchanged. -/
theorem refresh_access_token_statuses :
    (refresh_access_token refreshState testManager
        (testManager.create_refresh_token [("user_id", JVal.s "1")] (some 5) 0)
        10).2
      = Except.error { status := 401, detail := "Token has expired" }
    ∧ (refresh_access_token refreshState testManager
        (testManager.create_access_token [("user_id", JVal.s "1")] (some 5) 0)
        1).2
      = Except.error { status := 401, detail := "Invalid token" }
    ∧ (refresh_access_token refreshState testManager
        (testManager.create_refresh_token [("user_id", JVal.s "2")] none 0) 1).2
      = Except.error { status := 401, detail := "Refresh token not found." }
    ∧ (refresh_access_token { refreshState with users := [] } testManager
        loginRefreshToken 1).2
      = Except.error { status := 404, detail := "User not found." }
    ∧ refresh_access_token refreshState testManager loginRefreshToken 1
      = (refreshState,
         Except.ok (testManager.create_access_token [("user_id", JVal.n 1)]
           none 1)) := by
  exact ⟨rfl, rfl, rfl, rfl, rfl⟩

/-! ## C10 — refresh-issued access tokens lack the email claim -/

/-- Any access token returned by a successful refresh carries exactly the
`user_id` and `exp` claims. -/
lemma refresh_ok_shape (st : State) (m : JWTAuthManager) (tok newTok : Token)
    (now : Nat)
    (h : (refresh_access_token st m tok now).2 = Except.ok newTok) :
    ∃ uid, newTok = m.create_access_token [("user_id", JVal.n uid)] none now := by
  unfold refresh_access_token at h
  split at h
  · simp at h
  · split at h
    · simp at h
    · split at h
      · simp at h
      · split at h
        · simp at h
        · simp at h
          exact ⟨_, h.symm⟩

/-- C10: every access token issued by a successful POST /refresh is
rejected by the bearer-auth dependency of every protected endpoint with
HTTP 401 "Invalid token: missing email", at any time before its expiry and
against any user table — the token carries only the `user_id` claim while
`_get_user_from_token` resolves the caller solely by the `email` claim. -/
theorem refresh_issued_token_rejected (st st2 : State) (m : JWTAuthManager)
    (tok newTok : Token) (now t : Nat)
    (hok : (refresh_access_token st m tok now).2 = Except.ok newTok)
    (hfresh : t < now + m.accessTokenExpireMinutes * 60) :
    get_user_from_token st2 newTok m t
      = Except.error { status := 401, detail := "Invalid token: missing email" } := by
  obtain ⟨uid, rfl⟩ := refresh_ok_shape st m tok newTok now hok
  have hnl : ¬ (now + m.accessTokenExpireMinutes * 60 ≤ t) := by omega
  have hdec : m.decode_access_token
      (m.create_access_token [("user_id", JVal.n uid)] none now) t
      = Except.ok (dictSet [("user_id", JVal.n uid)] "exp"
          (JVal.n (now + m.accessTokenExpireMinutes * 60))) := by
    simp only [JWTAuthManager.decode_access_token,
      JWTAuthManager.create_access_token, JWTAuthManager.create_token,
      JWTAuthManager.decode_token, jwtDecode, Option.getD_none, ne_eq,
      not_true_eq_false, if_false, dictGet_dictSet_self, if_neg hnl]
  have hemail : dictGet (dictSet [("user_id", JVal.n uid)] "exp"
      (JVal.n (now + m.accessTokenExpireMinutes * 60))) "email" = none := by
    rw [dictGet_dictSet_ne _ _ _ _ (by decide)]
    rfl
  unfold get_user_from_token
  rw [hdec]
  simp [hemail]

/-- C10 witness: a refresh performed against the concrete store yields an
access token that the bearer-auth dependency rejects with 401 "Invalid
token: missing email". -/
theorem refresh_issued_token_rejected_witness :
    get_user_from_token refreshState
        (testManager.create_access_token [("user_id", JVal.n 1)] none 1)
        testManager 2
      = Except.error { status := 401, detail := "Invalid token: missing email" } := by
  exact refresh_issued_token_rejected refreshState refreshState testManager
    loginRefreshToken
    (testManager.create_access_token [("user_id", JVal.n 1)] none 1) 1 2
    rfl (by decide)

end FastApiStore
